import Mathlib

/-!
Verification of the domain-separation registry and field-width constants in
`src/circuits/cpp/barretenberg/src/aztec/rollup/proofs/notes/constants.hpp`.

The header declares one `constexpr size_t` (`NOTE_VALUE_BIT_LENGTH`), the
`GeneratorIndex` enum (twenty enumerators, six with explicit initializers),
and five `constexpr uint32_t` DeFi-bridge field widths.  We embed the enum
declaration as an ordered list of (name, optional explicit value) pairs and
compute enumerator values by the C++ rule: the first enumerator without an
initializer is 0, every later enumerator without an initializer is the
previous enumerator's value plus one.
-/

namespace Notes

/-- `constexpr size_t NOTE_VALUE_BIT_LENGTH = 252;` -/
def NOTE_VALUE_BIT_LENGTH : Nat := 252

/-- `constexpr uint32_t DEFI_BRIDGE_ADDRESS_BIT_LENGTH = 160;` -/
def DEFI_BRIDGE_ADDRESS_BIT_LENGTH : Nat := 160

/-- `constexpr uint32_t DEFI_BRIDGE_NUM_OUTPUT_NOTES_LEN = 2;` -/
def DEFI_BRIDGE_NUM_OUTPUT_NOTES_LEN : Nat := 2

/-- `constexpr uint32_t DEFI_BRIDGE_INPUT_ASSET_ID_LEN = 32;` -/
def DEFI_BRIDGE_INPUT_ASSET_ID_LEN : Nat := 32

/-- `constexpr uint32_t DEFI_BRIDGE_OUTPUT_A_ASSET_ID_LEN = 32;` -/
def DEFI_BRIDGE_OUTPUT_A_ASSET_ID_LEN : Nat := 32

/-- `constexpr uint32_t DEFI_BRIDGE_OUTPUT_B_ASSET_ID_LEN = 26;` -/
def DEFI_BRIDGE_OUTPUT_B_ASSET_ID_LEN : Nat := 26

/-- The twenty enumerators of `enum GeneratorIndex`, one constructor per
enumerator, in declaration order. -/
inductive GeneratorPurpose where
  | JOIN_SPLIT_NULLIFIER_HASH_INPUTS
  | ACCOUNT_NOTE_HASH_INPUTS
  | ACCOUNT_ALIAS_ID_NULLIFIER
  | ACCOUNT_GIBBERISH_NULLIFIER
  | JOIN_SPLIT_NOTE_OWNER
  | JOIN_SPLIT_CLAIM_NOTE_PARTIAL_STATE
  | JOIN_SPLIT_NOTE_VALUE
  | JOIN_SPLIT_NOTE_SECRET
  | JOIN_SPLIT_NOTE_ASSET_ID
  | JOIN_SPLIT_NOTE_NONCE
  | JOIN_SPLIT_NULLIFIER_ACCOUNT_PRIVATE_KEY
  | JOIN_SPLIT_CLAIM_NOTE_VALUE
  | JOIN_SPLIT_CLAIM_NOTE_BRIDGE_ID
  | JOIN_SPLIT_CLAIM_NOTE_DEFI_INTERACTION_NONCE
  | DEFI_INTERACTION_NOTE_TOTAL_INPUT_VALUE
  | DEFI_INTERACTION_NOTE_BRIDGE_ID
  | DEFI_INTERACTION_NOTE_TOTAL_OUTPUT_A_VALUE
  | DEFI_INTERACTION_NOTE_TOTAL_OUTPUT_B_VALUE
  | DEFI_INTERACTION_NOTE_INTERACTION_NONCE
  | DEFI_INTERACTION_NOTE_INTERACTION_RESULT
  deriving DecidableEq

open GeneratorPurpose

/-- The `enum GeneratorIndex` declaration, in source order: each enumerator
together with its explicit initializer when the source gives one
(`= 4`, `= 7`, `= 11`, `= 13`, `= 15`, `= 34`), `none` otherwise. -/
def enumDecl : List (GeneratorPurpose × Option Nat) :=
  [(JOIN_SPLIT_NULLIFIER_HASH_INPUTS, none),
   (ACCOUNT_NOTE_HASH_INPUTS, some 4),
   (ACCOUNT_ALIAS_ID_NULLIFIER, some 7),
   (ACCOUNT_GIBBERISH_NULLIFIER, some 11),
   (JOIN_SPLIT_NOTE_OWNER, some 13),
   (JOIN_SPLIT_CLAIM_NOTE_PARTIAL_STATE, some 15),
   (JOIN_SPLIT_NOTE_VALUE, some 34),
   (JOIN_SPLIT_NOTE_SECRET, none),
   (JOIN_SPLIT_NOTE_ASSET_ID, none),
   (JOIN_SPLIT_NOTE_NONCE, none),
   (JOIN_SPLIT_NULLIFIER_ACCOUNT_PRIVATE_KEY, none),
   (JOIN_SPLIT_CLAIM_NOTE_VALUE, none),
   (JOIN_SPLIT_CLAIM_NOTE_BRIDGE_ID, none),
   (JOIN_SPLIT_CLAIM_NOTE_DEFI_INTERACTION_NONCE, none),
   (DEFI_INTERACTION_NOTE_TOTAL_INPUT_VALUE, none),
   (DEFI_INTERACTION_NOTE_BRIDGE_ID, none),
   (DEFI_INTERACTION_NOTE_TOTAL_OUTPUT_A_VALUE, none),
   (DEFI_INTERACTION_NOTE_TOTAL_OUTPUT_B_VALUE, none),
   (DEFI_INTERACTION_NOTE_INTERACTION_NONCE, none),
   (DEFI_INTERACTION_NOTE_INTERACTION_RESULT, none)]

/-- C++ enumerator value assignment: an enumerator with an initializer takes
that value; one without takes the running counter (0 for the first, previous
value plus one afterwards). -/
def assignEnumValues : Nat → List (GeneratorPurpose × Option Nat) →
    List (GeneratorPurpose × Nat)
  | _, [] => []
  | _, (p, some v) :: rest => (p, v) :: assignEnumValues (v + 1) rest
  | next, (p, none) :: rest => (p, next) :: assignEnumValues (next + 1) rest

/-- The values the C++ compiler assigns to the `GeneratorIndex` enumerators. -/
def enumValues : List (GeneratorPurpose × Nat) := assignEnumValues 0 enumDecl

/-- The arity (number of consecutive generators consumed) recorded for each
purpose: the source comments record 4 inputs for
`JOIN_SPLIT_NULLIFIER_HASH_INPUTS`, 3 for `ACCOUNT_NOTE_HASH_INPUTS`, 4 for
`ACCOUNT_ALIAS_ID_NULLIFIER`, 2 for `ACCOUNT_GIBBERISH_NULLIFIER`, 2 each for
the two `compress_to_point` purposes (generator ranges 26-29 and 30-33, i.e.
two inputs each), and each purpose from `JOIN_SPLIT_NOTE_VALUE` onward is a
singleton consuming one generator. -/
def arityOf : GeneratorPurpose → Nat
  | JOIN_SPLIT_NULLIFIER_HASH_INPUTS => 4
  | ACCOUNT_NOTE_HASH_INPUTS => 3
  | ACCOUNT_ALIAS_ID_NULLIFIER => 4
  | ACCOUNT_GIBBERISH_NULLIFIER => 2
  | JOIN_SPLIT_NOTE_OWNER => 2
  | JOIN_SPLIT_CLAIM_NOTE_PARTIAL_STATE => 2
  | _ => 1

/-- The generator-index registry: each purpose with its starting index and
its arity, so that the purpose owns the range `[index, index + arity)`. -/
def registry : List (GeneratorPurpose × Nat × Nat) :=
  enumValues.map (fun e => (e.1, e.2, arityOf e.1))

/-- Registry lookup: the `(index, arity)` pair recorded for a purpose. -/
def lookupPurpose (p : GeneratorPurpose) : Option (Nat × Nat) :=
  (registry.find? (fun e => e.1 == p)).map (fun e => e.2)

/-- Two `(index, arity)` ranges `[i, i + a)` are disjoint. -/
def rangesDisjoint (x y : Nat × Nat) : Prop :=
  x.1 + x.2 ≤ y.1 ∨ y.1 + y.2 ≤ x.1

instance (x y : Nat × Nat) : Decidable (rangesDisjoint x y) := by
  unfold rangesDisjoint; infer_instance

/-- The static overlap check over the full table: the number of unordered
pairs of distinct registry entries whose generator ranges intersect. -/
def overlapCount : Nat :=
  (registry.enum.map (fun ie =>
    (registry.enum.filter (fun je =>
      ie.1 < je.1 ∧ ¬ rangesDisjoint ie.2.2 je.2.2)).length)).sum

/-- Modelled from the spec: the bit-length of the underlying scalar field is
not declared in this header (it lives with the external curve/field code);
the spec fixes it as "conventionally ~254 bits". -/
def scalarFieldBitLength : Nat := 254

/-- Modelled from the spec: width validation for the note value is not in
this header (it lives with the external note-encoding gadgets); the spec
requires that a value needing more than `NOTE_VALUE_BIT_LENGTH` bits is
rejected with an invalid-input error and never silently truncated, and any
value fitting in `NOTE_VALUE_BIT_LENGTH` bits is accepted unchanged. -/
def validateNoteValue (v : Nat) : Option Nat :=
  if v < 2 ^ NOTE_VALUE_BIT_LENGTH then some v else none

/-- A DeFi bridge interaction record: the five logical fields whose packed
widths the header's `DEFI_BRIDGE_*` constants fix. -/
structure DefiBridgeRecord where
  address : Nat
  numOutputNotes : Nat
  inputAssetId : Nat
  outputAAssetId : Nat
  outputBAssetId : Nat
  deriving DecidableEq

/-- All five fields of a record are within their declared bit widths. -/
def DefiBridgeRecord.inRange (r : DefiBridgeRecord) : Prop :=
  r.address < 2 ^ DEFI_BRIDGE_ADDRESS_BIT_LENGTH ∧
  r.numOutputNotes < 2 ^ DEFI_BRIDGE_NUM_OUTPUT_NOTES_LEN ∧
  r.inputAssetId < 2 ^ DEFI_BRIDGE_INPUT_ASSET_ID_LEN ∧
  r.outputAAssetId < 2 ^ DEFI_BRIDGE_OUTPUT_A_ASSET_ID_LEN ∧
  r.outputBAssetId < 2 ^ DEFI_BRIDGE_OUTPUT_B_ASSET_ID_LEN

/-- Modelled from the spec: the DeFi bridge packing itself is not in this
header (it lives with the external note encoders); the spec fixes the field
list and widths `(address: 160, numOutputNotes: 2, inputAssetId: 32,
outputAAssetId: 32, outputBAssetId: 26)` and requires a deterministic
bit-concatenation of the fields at exactly those widths. -/
def encodeBridge (r : DefiBridgeRecord) : Nat :=
  (((r.address * 2 ^ DEFI_BRIDGE_NUM_OUTPUT_NOTES_LEN + r.numOutputNotes) *
        2 ^ DEFI_BRIDGE_INPUT_ASSET_ID_LEN + r.inputAssetId) *
      2 ^ DEFI_BRIDGE_OUTPUT_A_ASSET_ID_LEN + r.outputAAssetId) *
    2 ^ DEFI_BRIDGE_OUTPUT_B_ASSET_ID_LEN + r.outputBAssetId

/-- Modelled from the spec: the inverse of `encodeBridge`, extracting each
field at its declared width. -/
def decodeBridge (x : Nat) : DefiBridgeRecord where
  outputBAssetId := x % 2 ^ DEFI_BRIDGE_OUTPUT_B_ASSET_ID_LEN
  outputAAssetId :=
    x / 2 ^ DEFI_BRIDGE_OUTPUT_B_ASSET_ID_LEN %
      2 ^ DEFI_BRIDGE_OUTPUT_A_ASSET_ID_LEN
  inputAssetId :=
    x / 2 ^ (DEFI_BRIDGE_OUTPUT_B_ASSET_ID_LEN +
        DEFI_BRIDGE_OUTPUT_A_ASSET_ID_LEN) %
      2 ^ DEFI_BRIDGE_INPUT_ASSET_ID_LEN
  numOutputNotes :=
    x / 2 ^ (DEFI_BRIDGE_OUTPUT_B_ASSET_ID_LEN +
        DEFI_BRIDGE_OUTPUT_A_ASSET_ID_LEN + DEFI_BRIDGE_INPUT_ASSET_ID_LEN) %
      2 ^ DEFI_BRIDGE_NUM_OUTPUT_NOTES_LEN
  address :=
    x / 2 ^ (DEFI_BRIDGE_OUTPUT_B_ASSET_ID_LEN +
        DEFI_BRIDGE_OUTPUT_A_ASSET_ID_LEN + DEFI_BRIDGE_INPUT_ASSET_ID_LEN +
        DEFI_BRIDGE_NUM_OUTPUT_NOTES_LEN) %
      2 ^ DEFI_BRIDGE_ADDRESS_BIT_LENGTH

/-- The total packed bit-width of a DeFi bridge interaction record. -/
def defiBridgeTotalBitLength : Nat :=
  DEFI_BRIDGE_ADDRESS_BIT_LENGTH + DEFI_BRIDGE_NUM_OUTPUT_NOTES_LEN +
    DEFI_BRIDGE_INPUT_ASSET_ID_LEN + DEFI_BRIDGE_OUTPUT_A_ASSET_ID_LEN +
    DEFI_BRIDGE_OUTPUT_B_ASSET_ID_LEN

/-- The registry as observed at a point of the program's lifetime: the header
declares only `constexpr` constants and a plain enum, so a read at any time
returns the same fixed table. -/
def registryAtTime (_t : Nat) : List (GeneratorPurpose × Nat × Nat) := registry

/-- The field-width constants as observed at a point of the program's
lifetime, in declaration order. -/
def widthsAtTime (_t : Nat) : List Nat :=
  [NOTE_VALUE_BIT_LENGTH, DEFI_BRIDGE_ADDRESS_BIT_LENGTH,
   DEFI_BRIDGE_NUM_OUTPUT_NOTES_LEN, DEFI_BRIDGE_INPUT_ASSET_ID_LEN,
   DEFI_BRIDGE_OUTPUT_A_ASSET_ID_LEN, DEFI_BRIDGE_OUTPUT_B_ASSET_ID_LEN]

/-- The generators a purpose reserves: the `arity` consecutive indices
starting at its `index`. -/
def reservedGenerators (p : GeneratorPurpose) : List Nat :=
  match lookupPurpose p with
  | some e => (List.range e.2).map (e.1 + ·)
  | none => []

lemma pack_mod (hi lo w : Nat) (h : lo < 2 ^ w) :
    (hi * 2 ^ w + lo) % 2 ^ w = lo := by
  rw [Nat.mul_comm hi, Nat.mul_add_mod, Nat.mod_eq_of_lt h]

lemma pack_div (hi lo w : Nat) (h : lo < 2 ^ w) :
    (hi * 2 ^ w + lo) / 2 ^ w = hi := by
  rw [Nat.mul_comm hi, Nat.mul_add_div (Nat.pos_pow_of_pos w (by norm_num)),
    Nat.div_eq_of_lt h, Nat.add_zero]

lemma pack_lt (hi lo h w : Nat) (hhi : hi < 2 ^ h) (hlo : lo < 2 ^ w) :
    hi * 2 ^ w + lo < 2 ^ (h + w) := by
  calc hi * 2 ^ w + lo < (hi + 1) * 2 ^ w := by
        rw [Nat.add_mul, Nat.one_mul]; omega
    _ ≤ 2 ^ h * 2 ^ w := Nat.mul_le_mul_right _ hhi
    _ = 2 ^ (h + w) := (pow_add 2 h w).symm

end Notes

namespace Notes

open GeneratorPurpose

/-- C1: for every pair of distinct purposes in the `GeneratorIndex` registry,
their generator ranges `[index, index + arity)` do not intersect, the arities
being those recorded for each purpose (4, 3, 4, 2, 2, 2 for the six
multi-input purposes at indices 0, 4, 7, 11, 13, 15, and 1 for each of the
fourteen singleton purposes from `JOIN_SPLIT_NOTE_VALUE = 34` onward). -/
theorem generator_ranges_pairwise_disjoint :
    ∀ i j : Fin registry.length, i ≠ j →
      rangesDisjoint (registry.get i).2 (registry.get j).2 := by decide

theorem generator_ranges_pairwise_disjoint_witness :
    rangesDisjoint (registry.get ⟨0, by decide⟩).2
      (registry.get ⟨1, by decide⟩).2 :=
  generator_ranges_pairwise_disjoint ⟨0, by decide⟩ ⟨1, by decide⟩ (by decide)

/-- C2: looking up `ACCOUNT_NOTE_HASH_INPUTS` returns index 4 with arity 3
(reserving generators 4, 5, 6), looking up `ACCOUNT_ALIAS_ID_NULLIFIER`
returns index 7 with arity 4 (reserving generators 7, 8, 9, 10), and the
static overlap check over the full table reports zero collisions. -/
theorem account_lookups_and_overlap_check :
    lookupPurpose ACCOUNT_NOTE_HASH_INPUTS = some (4, 3) ∧
    reservedGenerators ACCOUNT_NOTE_HASH_INPUTS = [4, 5, 6] ∧
    lookupPurpose ACCOUNT_ALIAS_ID_NULLIFIER = some (7, 4) ∧
    reservedGenerators ACCOUNT_ALIAS_ID_NULLIFIER = [7, 8, 9, 10] ∧
    overlapCount = 0 := by decide

/-- C3: `NOTE_VALUE_BIT_LENGTH` equals 252, which is strictly less than the
underlying scalar field's bit-length (~254 bits), leaving headroom for value
arithmetic. -/
theorem note_value_bit_length_below_field :
    NOTE_VALUE_BIT_LENGTH = 252 ∧
    NOTE_VALUE_BIT_LENGTH < scalarFieldBitLength := by decide

/-- C4: width validation against the note-value width rejects every integer
that requires 253 or more bits (reporting an invalid-input error, never a
truncated value) and accepts every integer that requires at most 252 bits,
returning it unchanged. -/
theorem note_value_width_validation (v : Nat) :
    (253 ≤ Nat.size v → validateNoteValue v = none) ∧
    (Nat.size v ≤ NOTE_VALUE_BIT_LENGTH → validateNoteValue v = some v) := by
  constructor
  · intro h
    have h2 : 2 ^ 252 ≤ v := Nat.lt_size.mp (by omega)
    unfold validateNoteValue NOTE_VALUE_BIT_LENGTH
    rw [if_neg (by omega)]
  · intro h
    unfold validateNoteValue
    rw [if_pos (Nat.size_le.mp h)]

theorem note_value_width_validation_witness :
    validateNoteValue (2 ^ 252) = none ∧ validateNoteValue 1 = some 1 :=
  ⟨(note_value_width_validation (2 ^ 252)).1 (by rw [Nat.size_pow]),
   (note_value_width_validation 1).2
     (by rw [Nat.size_one]; unfold NOTE_VALUE_BIT_LENGTH; omega)⟩

/-- C5: the field-width registry assigns bridge address 160 bits, output-note
count 2 bits, input asset id 32 bits, first output asset id 32 bits, and
second output asset id 26 bits; the 32/26 asymmetry between the two output
asset ids is preserved exactly. -/
theorem defi_bridge_field_widths :
    DEFI_BRIDGE_ADDRESS_BIT_LENGTH = 160 ∧
    DEFI_BRIDGE_NUM_OUTPUT_NOTES_LEN = 2 ∧
    DEFI_BRIDGE_INPUT_ASSET_ID_LEN = 32 ∧
    DEFI_BRIDGE_OUTPUT_A_ASSET_ID_LEN = 32 ∧
    DEFI_BRIDGE_OUTPUT_B_ASSET_ID_LEN = 26 ∧
    DEFI_BRIDGE_OUTPUT_A_ASSET_ID_LEN ≠ DEFI_BRIDGE_OUTPUT_B_ASSET_ID_LEN := by
  decide

/-- C6: the total packed bit-width of a DeFi bridge interaction record equals
the sum of its five component widths, 160 + 2 + 32 + 32 + 26 = 252 bits, and
every in-range record packs to a value below `2 ^ 252`, hence fits within one
field element of bit-length at least 253. -/
theorem defi_bridge_total_width :
    defiBridgeTotalBitLength =
      DEFI_BRIDGE_ADDRESS_BIT_LENGTH + DEFI_BRIDGE_NUM_OUTPUT_NOTES_LEN +
        DEFI_BRIDGE_INPUT_ASSET_ID_LEN + DEFI_BRIDGE_OUTPUT_A_ASSET_ID_LEN +
        DEFI_BRIDGE_OUTPUT_B_ASSET_ID_LEN ∧
    defiBridgeTotalBitLength = 252 ∧
    ∀ r : DefiBridgeRecord, r.inRange → ∀ b : Nat, 253 ≤ b →
      encodeBridge r < 2 ^ defiBridgeTotalBitLength ∧
      encodeBridge r < 2 ^ b := by
  refine ⟨rfl, rfl, ?_⟩
  intro r hr b hb
  obtain ⟨ha, hn, hi, hoa, hob⟩ := hr
  simp only [DEFI_BRIDGE_ADDRESS_BIT_LENGTH, DEFI_BRIDGE_NUM_OUTPUT_NOTES_LEN,
    DEFI_BRIDGE_INPUT_ASSET_ID_LEN, DEFI_BRIDGE_OUTPUT_A_ASSET_ID_LEN,
    DEFI_BRIDGE_OUTPUT_B_ASSET_ID_LEN] at ha hn hi hoa hob
  have h1 := pack_lt r.address r.numOutputNotes 160 2 ha hn
  have h2 := pack_lt _ r.inputAssetId (160 + 2) 32 h1 hi
  have h3 := pack_lt _ r.outputAAssetId (160 + 2 + 32) 32 h2 hoa
  have h4 := pack_lt _ r.outputBAssetId (160 + 2 + 32 + 32) 26 h3 hob
  have hbound : encodeBridge r < 2 ^ defiBridgeTotalBitLength := by
    unfold encodeBridge defiBridgeTotalBitLength
    simp only [DEFI_BRIDGE_ADDRESS_BIT_LENGTH, DEFI_BRIDGE_NUM_OUTPUT_NOTES_LEN,
      DEFI_BRIDGE_INPUT_ASSET_ID_LEN, DEFI_BRIDGE_OUTPUT_A_ASSET_ID_LEN,
      DEFI_BRIDGE_OUTPUT_B_ASSET_ID_LEN]
    exact h4
  refine ⟨hbound, lt_of_lt_of_le hbound (Nat.pow_le_pow_right (by norm_num) ?_)⟩
  show defiBridgeTotalBitLength ≤ b
  unfold defiBridgeTotalBitLength DEFI_BRIDGE_ADDRESS_BIT_LENGTH
    DEFI_BRIDGE_NUM_OUTPUT_NOTES_LEN DEFI_BRIDGE_INPUT_ASSET_ID_LEN
    DEFI_BRIDGE_OUTPUT_A_ASSET_ID_LEN DEFI_BRIDGE_OUTPUT_B_ASSET_ID_LEN
  omega

theorem defi_bridge_total_width_witness :
    encodeBridge (DefiBridgeRecord.mk 1 2 3 4 5) < 2 ^ defiBridgeTotalBitLength ∧
    encodeBridge (DefiBridgeRecord.mk 1 2 3 4 5) < 2 ^ 253 :=
  defi_bridge_total_width.2.2 (DefiBridgeRecord.mk 1 2 3 4 5)
    (by refine ⟨?_, ?_, ?_, ?_, ?_⟩ <;> decide) 253 (by omega)

/-- C7: for every tuple of in-range values, encoding with the DeFi bridge
packing defined by the width constants and then decoding reproduces the exact
original values (round-trip law). -/
theorem defi_bridge_roundtrip (r : DefiBridgeRecord) (h : r.inRange) :
    decodeBridge (encodeBridge r) = r := by
  obtain ⟨a, n, i, oa, ob⟩ := r
  obtain ⟨ha, hn, hi, hoa, hob⟩ := h
  simp only [DEFI_BRIDGE_ADDRESS_BIT_LENGTH, DEFI_BRIDGE_NUM_OUTPUT_NOTES_LEN,
    DEFI_BRIDGE_INPUT_ASSET_ID_LEN, DEFI_BRIDGE_OUTPUT_A_ASSET_ID_LEN,
    DEFI_BRIDGE_OUTPUT_B_ASSET_ID_LEN] at ha hn hi hoa hob
  unfold decodeBridge encodeBridge
  simp only [DEFI_BRIDGE_ADDRESS_BIT_LENGTH, DEFI_BRIDGE_NUM_OUTPUT_NOTES_LEN,
    DEFI_BRIDGE_INPUT_ASSET_ID_LEN, DEFI_BRIDGE_OUTPUT_A_ASSET_ID_LEN,
    DEFI_BRIDGE_OUTPUT_B_ASSET_ID_LEN, DefiBridgeRecord.mk.injEq]
  refine ⟨?_, ?_, ?_, ?_, ?_⟩
  · rw [pow_add, pow_add, pow_add, ← Nat.div_div_eq_div_mul,
      ← Nat.div_div_eq_div_mul, ← Nat.div_div_eq_div_mul, pack_div _ _ _ hob,
      pack_div _ _ _ hoa, pack_div _ _ _ hi, pack_div _ _ _ hn,
      Nat.mod_eq_of_lt ha]
  · rw [pow_add, pow_add, ← Nat.div_div_eq_div_mul, ← Nat.div_div_eq_div_mul,
      pack_div _ _ _ hob, pack_div _ _ _ hoa, pack_div _ _ _ hi,
      pack_mod _ _ _ hn]
  · rw [pow_add, ← Nat.div_div_eq_div_mul, pack_div _ _ _ hob,
      pack_div _ _ _ hoa, pack_mod _ _ _ hi]
  · rw [pack_div _ _ _ hob, pack_mod _ _ _ hoa]
  · exact pack_mod _ _ _ hob

theorem defi_bridge_roundtrip_witness :
    decodeBridge (encodeBridge (DefiBridgeRecord.mk 1 2 3 4 5)) =
      DefiBridgeRecord.mk 1 2 3 4 5 :=
  defi_bridge_roundtrip (DefiBridgeRecord.mk 1 2 3 4 5)
    (by refine ⟨?_, ?_, ?_, ?_, ?_⟩ <;> decide)

/-- C8: for every purpose in the `GeneratorIndex` registry, the arity is at
least 1. -/
theorem arity_at_least_one :
    ∀ e ∈ registry, 1 ≤ e.2.2 := by decide

theorem arity_at_least_one_witness :
    1 ≤ ((JOIN_SPLIT_NULLIFIER_HASH_INPUTS, 0, 4) :
        GeneratorPurpose × Nat × Nat).2.2 :=
  arity_at_least_one (JOIN_SPLIT_NULLIFIER_HASH_INPUTS, 0, 4) (by decide)

/-- C9: reading the registry at any two points of the program's lifetime
yields identical `(index, arity)` values for every purpose and identical
bit-lengths for every field-width constant; the header declares only
`constexpr` constants and a plain enum, so the table is immutable after build
time. -/
theorem registry_immutable :
    ∀ t1 t2 : Nat, registryAtTime t1 = registryAtTime t2 ∧
      widthsAtTime t1 = widthsAtTime t2 :=
  fun _ _ => ⟨rfl, rfl⟩

/-- C10: all twenty `GeneratorIndex` enumerators have pairwise-distinct
values: the first enumerator gets 0 by the enum default, the explicit values
are 4, 7, 11, 13, 15 and 34, auto-increment gives the remaining thirteen
singletons the consecutive values 35 through 47, and the values are strictly
increasing in declaration order. -/
theorem enum_values_distinct_increasing :
    enumValues =
      [(JOIN_SPLIT_NULLIFIER_HASH_INPUTS, 0), (ACCOUNT_NOTE_HASH_INPUTS, 4),
       (ACCOUNT_ALIAS_ID_NULLIFIER, 7), (ACCOUNT_GIBBERISH_NULLIFIER, 11),
       (JOIN_SPLIT_NOTE_OWNER, 13), (JOIN_SPLIT_CLAIM_NOTE_PARTIAL_STATE, 15),
       (JOIN_SPLIT_NOTE_VALUE, 34), (JOIN_SPLIT_NOTE_SECRET, 35),
       (JOIN_SPLIT_NOTE_ASSET_ID, 36), (JOIN_SPLIT_NOTE_NONCE, 37),
       (JOIN_SPLIT_NULLIFIER_ACCOUNT_PRIVATE_KEY, 38),
       (JOIN_SPLIT_CLAIM_NOTE_VALUE, 39),
       (JOIN_SPLIT_CLAIM_NOTE_BRIDGE_ID, 40),
       (JOIN_SPLIT_CLAIM_NOTE_DEFI_INTERACTION_NONCE, 41),
       (DEFI_INTERACTION_NOTE_TOTAL_INPUT_VALUE, 42),
       (DEFI_INTERACTION_NOTE_BRIDGE_ID, 43),
       (DEFI_INTERACTION_NOTE_TOTAL_OUTPUT_A_VALUE, 44),
       (DEFI_INTERACTION_NOTE_TOTAL_OUTPUT_B_VALUE, 45),
       (DEFI_INTERACTION_NOTE_INTERACTION_NONCE, 46),
       (DEFI_INTERACTION_NOTE_INTERACTION_RESULT, 47)] ∧
    (∀ i j : Fin enumValues.length, i < j →
      (enumValues.get i).2 < (enumValues.get j).2) ∧
    (∀ i j : Fin enumValues.length, i ≠ j →
      (enumValues.get i).2 ≠ (enumValues.get j).2) := by decide

theorem enum_values_distinct_increasing_witness :
    (enumValues.get ⟨0, by decide⟩).2 ≠ (enumValues.get ⟨1, by decide⟩).2 :=
  enum_values_distinct_increasing.2.2 ⟨0, by decide⟩ ⟨1, by decide⟩ (by decide)

end Notes
